import Mathlib

/-!
Shallow embedding of `src/finite_element.py` (class `FiniteElement`).

Python double-precision arithmetic is modelled by exact rational
arithmetic (`ℚ`); every formula in the source is a closed-form
expression, so the algebraic identities below are the exact content of
the floating-point code.  `numpy` arrays are modelled by Lean lists
(1-D arrays) and lists of row lists (2-D arrays); scalar·array
broadcasting becomes `List.map`.  The single Python
`Exception('Invalid choice of element type')` is modelled by the
one-constructor error type `ElemError.InvalidElementType`, and every
fallible method returns `Except ElemError _`.
-/

/-- The single error kind of the kernel: `Exception('Invalid choice of
element type')` in the source. -/
inductive ElemError where
  | InvalidElementType
deriving DecidableEq

/-- A numpy array of doubles as returned by the kernel: either 1-D or 2-D. -/
inductive NpArray where
  | arr1 : List ℚ → NpArray
  | arr2 : List (List ℚ) → NpArray
deriving DecidableEq

/-- An integer index container as returned by `get_dof_index`: a plain
Python list (Elasticity) or a 2-D integer numpy array (EB_beam). -/
inductive DofArray where
  | list1 : List ℕ → DofArray
  | arr2 : List (List ℕ) → DofArray
deriving DecidableEq

/-- `np.array([[2,1],[1,2]]).dot(np.array([[b1],[b2]]))`, as matrix times
column vector, returning the column as a flat list. -/
def mat2vec (m : List (List ℚ)) (v : List ℚ) : List ℚ :=
  m.map (fun row => (List.zipWith (fun a b => a * b) row v).sum)

/-- The `FiniteElement` class: holds exactly the `problem_type` string. -/
structure FiniteElement where
  problem_type : String

namespace FiniteElement

/-- `get_Ke`: element stiffness matrix.
Elasticity: `(Ae*Ee/le) * np.array([[1,-1],[-1,1]])` (2×2).
EB_beam: `EIe/(le**3) * np.array([12, 6*le, ..., 4*le**2])` (flat, 16). -/
def get_Ke (self : FiniteElement) (Ae Ee le EIe : ℚ) : Except ElemError NpArray :=
  if self.problem_type = "Elasticity" then
    .ok (.arr2 ([[(1 : ℚ), -1], [-1, 1]].map
      (fun row => row.map (fun v => Ae * Ee / le * v))))
  else if self.problem_type = "EB_beam" then
    .ok (.arr1 ([(12 : ℚ), 6*le, -12, 6*le, 6*le, 4*le^2, -6*le, 2*le^2,
                 -12, -6*le, 12, -6*le, 6*le, 2*le^2, -6*le, 4*le^2].map
      (fun v => EIe / le^3 * v)))
  else
    .error .InvalidElementType

/-- `get_fe_omega`: force vector due to distributed loading.
Elasticity: `(le/6) * [[2,1],[1,2]].dot([[b1],[b2]])` (2×1).
EB_beam: `(fe*le/2) * np.array([1, le/6, 1, -le/6])` (flat, 4). -/
def get_fe_omega (self : FiniteElement) (le b1 b2 fe : ℚ) : Except ElemError NpArray :=
  if self.problem_type = "Elasticity" then
    .ok (.arr2 ((mat2vec [[2, 1], [1, 2]] [b1, b2]).map
      (fun x => [le / 6 * x])))
  else if self.problem_type = "EB_beam" then
    .ok (.arr1 ([(1 : ℚ), le/6, 1, -(le/6)].map (fun v => fe * le / 2 * v)))
  else
    .error .InvalidElementType

/-- `get_dynamic_fe_omega`: EB_beam only;
`(fe[node]*le/2) * np.array([1, le/6, 1, -le/6])`.  The node index is a
valid index into `fe` (Python would raise `IndexError` otherwise, which
is outside the behaviour the spec describes). -/
def get_dynamic_fe_omega (self : FiniteElement) (le : ℚ) (fe : List ℚ)
    (node : Fin fe.length) : Except ElemError NpArray :=
  if self.problem_type = "EB_beam" then
    .ok (.arr1 ([(1 : ℚ), le/6, 1, -(le/6)].map
      (fun v => fe.get node * le / 2 * v)))
  else
    .error .InvalidElementType

/-- `get_gauss_quadrature_index`: `0.5*(a+b) + 0.5*(b-a)*f`; no dispatch on
`problem_type`, never fails. -/
def get_gauss_quadrature_index (_self : FiniteElement) (f a b : ℚ) : ℚ :=
  1/2 * (a + b) + 1/2 * (b - a) * f

/-- `get_dof_index`: global DOFs of element `e`.
Elasticity: the Python list `[e, e+1]`.
EB_beam: a 2×16 integer array `exy` filled by two double loops:
`exy[0, ii*4+jj] = e*2 + ii` and `exy[1, ii*4+jj] = e*2 + jj` for
`ii, jj` in `range(4)`.  (The local `ey = np.zeros(16)` in the source is
dead code and has no observable effect.) -/
def get_dof_index (self : FiniteElement) (e : ℕ) : Except ElemError DofArray :=
  if self.problem_type = "Elasticity" then
    .ok (.list1 [e, e + 1])
  else if self.problem_type = "EB_beam" then
    .ok (.arr2 [(List.range 4).flatMap (fun ii => (List.range 4).map (fun _jj => e * 2 + ii)),
                (List.range 4).flatMap (fun _ii => (List.range 4).map (fun jj => e * 2 + jj))])
  else
    .error .InvalidElementType

/-- `get_strain_e`: Elasticity only; `(1/le) * np.array([-1,1]).dot(de)`. -/
def get_strain_e (self : FiniteElement) (le : ℚ) (de : List ℚ) :
    Except ElemError ℚ :=
  if self.problem_type = "Elasticity" then
    .ok (1 / le * (List.zipWith (fun a b => a * b) [(-1 : ℚ), 1] de).sum)
  else
    .error .InvalidElementType

end FiniteElement

/-- Entry of a 1-D array result at position `i` (0 when the result is an
error, a 2-D array, or `i` is out of range). -/
def arr1entry (r : Except ElemError NpArray) (i : ℕ) : ℚ :=
  match r with
  | .ok (.arr1 xs) => xs.getD i 0
  | _ => 0

/-- `Except` success as a Boolean. -/
def isOkE {ε α : Type _} : Except ε α → Bool
  | .ok _ => true
  | .error _ => false

/-- Branch evaluation: `get_Ke` on an `Elasticity` kernel. -/
theorem get_Ke_Elast (Ae Ee le EIe : ℚ) :
    (FiniteElement.mk "Elasticity").get_Ke Ae Ee le EIe
      = .ok (.arr2 [[Ae * Ee / le * 1, Ae * Ee / le * (-1)],
                    [Ae * Ee / le * (-1), Ae * Ee / le * 1]]) := rfl

/-- Branch evaluation: `get_Ke` on an `EB_beam` kernel. -/
theorem get_Ke_EB (Ae Ee le EIe : ℚ) :
    (FiniteElement.mk "EB_beam").get_Ke Ae Ee le EIe
      = .ok (.arr1 [EIe / le^3 * 12, EIe / le^3 * (6*le),
                    EIe / le^3 * (-12), EIe / le^3 * (6*le),
                    EIe / le^3 * (6*le), EIe / le^3 * (4*le^2),
                    EIe / le^3 * (-6*le), EIe / le^3 * (2*le^2),
                    EIe / le^3 * (-12), EIe / le^3 * (-6*le),
                    EIe / le^3 * 12, EIe / le^3 * (-6*le),
                    EIe / le^3 * (6*le), EIe / le^3 * (2*le^2),
                    EIe / le^3 * (-6*le), EIe / le^3 * (4*le^2)]) := rfl

/-- Branch evaluation: `get_fe_omega` on an `Elasticity` kernel. -/
theorem get_fe_omega_Elast (le b1 b2 fe : ℚ) :
    (FiniteElement.mk "Elasticity").get_fe_omega le b1 b2 fe
      = .ok (.arr2 [[le / 6 * (2 * b1 + (1 * b2 + 0))],
                    [le / 6 * (1 * b1 + (2 * b2 + 0))]]) := rfl

/-- Branch evaluation: `get_fe_omega` on an `EB_beam` kernel. -/
theorem get_fe_omega_EB (le b1 b2 fe : ℚ) :
    (FiniteElement.mk "EB_beam").get_fe_omega le b1 b2 fe
      = .ok (.arr1 [fe * le / 2 * 1, fe * le / 2 * (le/6),
                    fe * le / 2 * 1, fe * le / 2 * (-(le/6))]) := rfl

/-- Branch evaluation: `get_strain_e` on an `Elasticity` kernel at a
two-entry displacement list. -/
theorem get_strain_Elast (le d1 d2 : ℚ) :
    (FiniteElement.mk "Elasticity").get_strain_e le [d1, d2]
      = .ok (1 / le * (-1 * d1 + (1 * d2 + 0))) := rfl

/-- Branch evaluation: `get_dof_index` on an `EB_beam` kernel, with the two
rows of the 2×16 table written out. -/
theorem get_dof_EB (e : ℕ) :
    (FiniteElement.mk "EB_beam").get_dof_index e
      = .ok (.arr2 [[e*2, e*2, e*2, e*2, e*2+1, e*2+1, e*2+1, e*2+1,
                     e*2+2, e*2+2, e*2+2, e*2+2, e*2+3, e*2+3, e*2+3, e*2+3],
                    [e*2, e*2+1, e*2+2, e*2+3, e*2, e*2+1, e*2+2, e*2+3,
                     e*2, e*2+1, e*2+2, e*2+3, e*2, e*2+1, e*2+2, e*2+3]]) := rfl

/-- Positions at or past the end of the EB_beam stiffness sequence read as
the default 0. -/
theorem arr1entry_Ke_EB_ge16 (Ae Ee le EIe : ℚ) {i : ℕ} (h : 16 ≤ i) :
    arr1entry ((FiniteElement.mk "EB_beam").get_Ke Ae Ee le EIe) i = 0 := by
  rw [get_Ke_EB]
  show List.getD _ i 0 = 0
  exact List.getD_eq_default _ _ (by simpa using h)

/-- Scale factor applied to entry `i` of the flattened EB_beam stiffness
sequence when the element length doubles: `1/8` for the `±12` entries
(positions 0, 2, 8, 10), `1/2` for the `4l²`/`2l²` entries (positions 5, 7,
13, 15), and `1/4` for the `±6l` entries (all other in-range positions; for
out-of-range positions both sides of the scaling identity are 0). -/
def ebLenScale : ℕ → ℚ
  | 0 | 2 | 8 | 10 => 1/8
  | 5 | 7 | 13 | 15 => 1/2
  | _ => 1/4

/-- C1: `get_dof_index` returns `[e, e+1]` for Elasticity; for EB_beam it
returns a 2×16 table whose row 0 at linear position `ii*4+jj` (for all
`ii, jj < 4`) equals `2e+ii` and whose row 1 there equals `2e+jj`; at `e=0`
row 0 is `0,0,0,0,1,1,1,1,2,2,2,2,3,3,3,3` and row 1 cycles `0,1,2,3`. -/
theorem C1_dof_index (e ii jj : ℕ) (hii : ii < 4) (hjj : jj < 4) :
    (FiniteElement.mk "Elasticity").get_dof_index e = .ok (.list1 [e, e + 1]) ∧
    (∃ r0 r1, (FiniteElement.mk "EB_beam").get_dof_index e = .ok (.arr2 [r0, r1]) ∧
        r0.getD (ii * 4 + jj) 0 = 2 * e + ii ∧
        r1.getD (ii * 4 + jj) 0 = 2 * e + jj) ∧
    (FiniteElement.mk "EB_beam").get_dof_index 0
      = .ok (.arr2 [[0,0,0,0,1,1,1,1,2,2,2,2,3,3,3,3],
                    [0,1,2,3,0,1,2,3,0,1,2,3,0,1,2,3]]) := by
  refine ⟨rfl, ⟨_, _, get_dof_EB e, ?_, ?_⟩, rfl⟩ <;>
    interval_cases ii <;> interval_cases jj <;> simp <;> omega

/-- Witness for C1 at `e = 5`, `ii = 2`, `jj = 3`. -/
theorem C1_dof_index_witness :
    (2 : ℕ) < 4 ∧ (3 : ℕ) < 4 ∧
    ((FiniteElement.mk "Elasticity").get_dof_index 5 = .ok (.list1 [5, 5 + 1]) ∧
     (∃ r0 r1, (FiniteElement.mk "EB_beam").get_dof_index 5 = .ok (.arr2 [r0, r1]) ∧
         r0.getD (2 * 4 + 3) 0 = 2 * 5 + 2 ∧
         r1.getD (2 * 4 + 3) 0 = 2 * 5 + 3) ∧
     (FiniteElement.mk "EB_beam").get_dof_index 0
       = .ok (.arr2 [[0,0,0,0,1,1,1,1,2,2,2,2,3,3,3,3],
                     [0,1,2,3,0,1,2,3,0,1,2,3,0,1,2,3]])) :=
  ⟨by decide, by decide, C1_dof_index 5 2 3 (by decide) (by decide)⟩

/-- C2 counterexample: the claim says doubling the length multiplies every
entry of the EB_beam stiffness sequence by 1/8, but at `EI = 1`, `l = 1` the
entry at flattened position 1 (a `6l` entry) scales by 1/4: it is 6 at
`l = 1` and 3/2 at `l = 2`, while the claim predicts 6/8. -/
theorem C2_Ke_scaling_counterexample :
    ¬ (arr1entry ((FiniteElement.mk "EB_beam").get_Ke 0 0 (2 * 1) 1) 1
        = 1/8 * arr1entry ((FiniteElement.mk "EB_beam").get_Ke 0 0 1 1) 1) := by
  norm_num [get_Ke_EB, arr1entry]

/-- C2 (amended): for EB_beam, doubling `EI` doubles every entry of the
stiffness sequence; doubling `l` multiplies the entry at flattened position
`i` by `ebLenScale i`, i.e. by 1/8 at the `±12` positions 0, 2, 8, 10, by
1/2 at the `l²` positions 5, 7, 13, 15, and by 1/4 at the `±6l` positions. -/
theorem C2_Ke_scaling (EIe le : ℚ) (i : ℕ) :
    arr1entry ((FiniteElement.mk "EB_beam").get_Ke 0 0 le (2 * EIe)) i
      = 2 * arr1entry ((FiniteElement.mk "EB_beam").get_Ke 0 0 le EIe) i ∧
    arr1entry ((FiniteElement.mk "EB_beam").get_Ke 0 0 (2 * le) EIe) i
      = ebLenScale i * arr1entry ((FiniteElement.mk "EB_beam").get_Ke 0 0 le EIe) i := by
  rcases Nat.lt_or_ge i 16 with h | h
  · constructor <;>
      · interval_cases i <;>
          simp [get_Ke_EB, arr1entry, ebLenScale, div_eq_mul_inv, mul_pow,
            mul_inv, inv_pow] <;> ring
  · rw [arr1entry_Ke_EB_ge16 0 0 le (2 * EIe) h,
      arr1entry_Ke_EB_ge16 0 0 le EIe h,
      arr1entry_Ke_EB_ge16 0 0 (2 * le) EIe h]
    simp

/-- C3: for EB_beam, `get_Ke` returns exactly the flattened row-major
sequence `(EI/l³)·[12, 6l, -12, 6l, 6l, 4l², -6l, 2l², -12, -6l, 12, -6l,
6l, 2l², -6l, 4l²]`, in that order. -/
theorem C3_Ke_EB_values (Ae Ee le EIe : ℚ) :
    (FiniteElement.mk "EB_beam").get_Ke Ae Ee le EIe
      = .ok (.arr1 [EIe/le^3 * 12, EIe/le^3 * (6*le),
                    EIe/le^3 * (-12), EIe/le^3 * (6*le),
                    EIe/le^3 * (6*le), EIe/le^3 * (4*le^2),
                    EIe/le^3 * (-6*le), EIe/le^3 * (2*le^2),
                    EIe/le^3 * (-12), EIe/le^3 * (-6*le),
                    EIe/le^3 * 12, EIe/le^3 * (-6*le),
                    EIe/le^3 * (6*le), EIe/le^3 * (2*le^2),
                    EIe/le^3 * (-6*le), EIe/le^3 * (4*le^2)]) := rfl

/-- C4: every dispatching operation fails with the single error kind
`InvalidElementType` exactly when the stored `problem_type` is outside the
set it supports: for any tag outside `{Elasticity, EB_beam}` all five
dispatching operations fail; `get_dynamic_fe_omega` also fails on
`Elasticity` and `get_strain_e` also fails on `EB_beam`; on a supported tag
each operation succeeds, so no other error kind ever arises. -/
theorem C4_invalid_element_type (tag : String) (Ae Ee le EIe b1 b2 fe d1 d2 : ℚ)
    (e : ℕ) (fs : List ℚ) (node : Fin fs.length)
    (h1 : tag ≠ "Elasticity") (h2 : tag ≠ "EB_beam") :
    ((FiniteElement.mk tag).get_Ke Ae Ee le EIe = .error .InvalidElementType) ∧
    ((FiniteElement.mk tag).get_fe_omega le b1 b2 fe = .error .InvalidElementType) ∧
    ((FiniteElement.mk tag).get_dynamic_fe_omega le fs node = .error .InvalidElementType) ∧
    ((FiniteElement.mk tag).get_dof_index e = .error .InvalidElementType) ∧
    ((FiniteElement.mk tag).get_strain_e le [d1, d2] = .error .InvalidElementType) ∧
    ((FiniteElement.mk "Elasticity").get_dynamic_fe_omega le fs node
      = .error .InvalidElementType) ∧
    ((FiniteElement.mk "EB_beam").get_strain_e le [d1, d2]
      = .error .InvalidElementType) ∧
    (isOkE ((FiniteElement.mk "Elasticity").get_Ke Ae Ee le EIe) = true) ∧
    (isOkE ((FiniteElement.mk "EB_beam").get_Ke Ae Ee le EIe) = true) ∧
    (isOkE ((FiniteElement.mk "Elasticity").get_fe_omega le b1 b2 fe) = true) ∧
    (isOkE ((FiniteElement.mk "EB_beam").get_fe_omega le b1 b2 fe) = true) ∧
    (isOkE ((FiniteElement.mk "EB_beam").get_dynamic_fe_omega le fs node) = true) ∧
    (isOkE ((FiniteElement.mk "Elasticity").get_dof_index e) = true) ∧
    (isOkE ((FiniteElement.mk "EB_beam").get_dof_index e) = true) ∧
    (isOkE ((FiniteElement.mk "Elasticity").get_strain_e le [d1, d2]) = true) := by
  refine ⟨?_, ?_, ?_, ?_, ?_, rfl, rfl, rfl, rfl, rfl, rfl, rfl, rfl, rfl, rfl⟩ <;>
    simp [FiniteElement.get_Ke, FiniteElement.get_fe_omega,
      FiniteElement.get_dynamic_fe_omega, FiniteElement.get_dof_index,
      FiniteElement.get_strain_e, h1, h2]

/-- Witness for C4 at `tag = "Truss"`, all numeric arguments 1, `e = 0`,
`fs = [1]`, `node = 0`. -/
theorem C4_invalid_element_type_witness :
    ("Truss" ≠ "Elasticity") ∧ ("Truss" ≠ "EB_beam") ∧
    (((FiniteElement.mk "Truss").get_Ke 1 1 1 1 = .error .InvalidElementType) ∧
     ((FiniteElement.mk "Truss").get_fe_omega 1 1 1 1 = .error .InvalidElementType) ∧
     ((FiniteElement.mk "Truss").get_dynamic_fe_omega 1 [1] ⟨0, by decide⟩
       = .error .InvalidElementType) ∧
     ((FiniteElement.mk "Truss").get_dof_index 0 = .error .InvalidElementType) ∧
     ((FiniteElement.mk "Truss").get_strain_e 1 [1, 1] = .error .InvalidElementType) ∧
     ((FiniteElement.mk "Elasticity").get_dynamic_fe_omega 1 [1] ⟨0, by decide⟩
       = .error .InvalidElementType) ∧
     ((FiniteElement.mk "EB_beam").get_strain_e 1 [1, 1]
       = .error .InvalidElementType) ∧
     (isOkE ((FiniteElement.mk "Elasticity").get_Ke 1 1 1 1) = true) ∧
     (isOkE ((FiniteElement.mk "EB_beam").get_Ke 1 1 1 1) = true) ∧
     (isOkE ((FiniteElement.mk "Elasticity").get_fe_omega 1 1 1 1) = true) ∧
     (isOkE ((FiniteElement.mk "EB_beam").get_fe_omega 1 1 1 1) = true) ∧
     (isOkE ((FiniteElement.mk "EB_beam").get_dynamic_fe_omega 1 [1] ⟨0, by decide⟩) = true) ∧
     (isOkE ((FiniteElement.mk "Elasticity").get_dof_index 0) = true) ∧
     (isOkE ((FiniteElement.mk "EB_beam").get_dof_index 0) = true) ∧
     (isOkE ((FiniteElement.mk "Elasticity").get_strain_e 1 [1, 1]) = true)) :=
  ⟨by decide, by decide,
   C4_invalid_element_type "Truss" 1 1 1 1 1 1 1 1 1 0 [1] ⟨0, by decide⟩
     (by decide) (by decide)⟩

/-- C5: for Elasticity, `get_Ke` returns `(A·E/l)·[[1,-1],[-1,1]]`; with
`A = 2`, `E = 3`, `l = 4` it returns `[[3/2, -3/2], [-3/2, 3/2]]`. -/
theorem C5_Ke_Elast (Ae Ee le EIe : ℚ) :
    (FiniteElement.mk "Elasticity").get_Ke Ae Ee le EIe
      = .ok (.arr2 [[Ae * Ee / le, -(Ae * Ee / le)],
                    [-(Ae * Ee / le), Ae * Ee / le]]) ∧
    (FiniteElement.mk "Elasticity").get_Ke 2 3 4 0
      = .ok (.arr2 [[3/2, -(3/2)], [-(3/2), 3/2]]) := by
  constructor
  · rw [get_Ke_Elast]; norm_num
  · rw [get_Ke_Elast]; norm_num

/-- C6: for Elasticity, `get_fe_omega` returns the 2×1 vector
`(l/6)·[[2,1],[1,2]]·[b1,b2]ᵀ = [[l/6·(2b1+b2)], [l/6·(b1+2b2)]]`; with
`l = 6`, `b1 = 1`, `b2 = 2` it returns `[[4], [5]]`. -/
theorem C6_fe_omega_Elast (le b1 b2 fe : ℚ) :
    (FiniteElement.mk "Elasticity").get_fe_omega le b1 b2 fe
      = .ok (.arr2 [[le / 6 * (2 * b1 + b2)], [le / 6 * (b1 + 2 * b2)]]) ∧
    (FiniteElement.mk "Elasticity").get_fe_omega 6 1 2 0
      = .ok (.arr2 [[4], [5]]) := by
  constructor
  · rw [get_fe_omega_Elast]; norm_num
  · rw [get_fe_omega_Elast]; norm_num

/-- C7: `get_gauss_quadrature_index` returns `0.5(a+b) + 0.5(b-a)·x` for
every stored tag without ever failing, and maps `x = -1` to `a` and
`x = 1` to `b` exactly, for all `a`, `b`. -/
theorem C7_gauss_interpolation (tag : String) (x a b : ℚ) :
    (FiniteElement.mk tag).get_gauss_quadrature_index x a b
      = 1/2 * (a + b) + 1/2 * (b - a) * x ∧
    (FiniteElement.mk tag).get_gauss_quadrature_index (-1) a b = a ∧
    (FiniteElement.mk tag).get_gauss_quadrature_index 1 a b = b := by
  refine ⟨rfl, ?_, ?_⟩ <;>
    · show 1/2 * (a + b) + 1/2 * (b - a) * _ = _
      ring

/-- C8: for Elasticity, `get_strain_e` at length `l` and displacements
`[d1, d2]` returns the scalar `(1/l)·(-d1 + d2)`; with `l = 2`,
`d = [1, 3]` it returns 1; for every other tag it fails. -/
theorem C8_strain_Elast (tag : String) (le d1 d2 : ℚ) (h : tag ≠ "Elasticity") :
    (FiniteElement.mk "Elasticity").get_strain_e le [d1, d2]
      = .ok (1 / le * (-d1 + d2)) ∧
    (FiniteElement.mk "Elasticity").get_strain_e 2 [1, 3] = .ok 1 ∧
    (FiniteElement.mk tag).get_strain_e le [d1, d2]
      = .error .InvalidElementType := by
  refine ⟨?_, ?_, ?_⟩
  · rw [get_strain_Elast]; norm_num
  · rw [get_strain_Elast]; norm_num
  · simp [FiniteElement.get_strain_e, h]

/-- Witness for C8 at `tag = "EB_beam"`, `l = 2`, `d = [1, 3]`. -/
theorem C8_strain_Elast_witness :
    ("EB_beam" ≠ "Elasticity") ∧
    ((FiniteElement.mk "Elasticity").get_strain_e 2 [1, 3]
       = .ok (1 / 2 * (-1 + 3)) ∧
     (FiniteElement.mk "Elasticity").get_strain_e 2 [1, 3] = .ok 1 ∧
     (FiniteElement.mk "EB_beam").get_strain_e 2 [1, 3]
       = .error .InvalidElementType) :=
  ⟨by decide, C8_strain_Elast "EB_beam" 2 1 3 (by decide)⟩

/-- C9: for EB_beam, `get_dynamic_fe_omega` at load sequence `f` and valid
index `node` returns exactly what `get_fe_omega` returns at the scalar load
`f[node]`: the 4-element sequence `(f[node]·l/2)·[1, l/6, 1, -l/6]`. -/
theorem C9_dynamic_matches_static (le : ℚ) (f : List ℚ) (node : Fin f.length) :
    (FiniteElement.mk "EB_beam").get_dynamic_fe_omega le f node
      = (FiniteElement.mk "EB_beam").get_fe_omega le 0 0 (f.get node) ∧
    (FiniteElement.mk "EB_beam").get_dynamic_fe_omega le f node
      = .ok (.arr1 [f.get node * le / 2 * 1,
                    f.get node * le / 2 * (le/6),
                    f.get node * le / 2 * 1,
                    f.get node * le / 2 * (-(le/6))]) :=
  ⟨rfl, rfl⟩

/-- C10: the flattened EB_beam stiffness sequence is symmetric as a 4×4
matrix: the entry at linear position `ii*4+jj` equals the entry at
`jj*4+ii` for all `ii, jj < 4`. -/
theorem C10_Ke_EB_symmetric (EIe le : ℚ) (ii jj : ℕ)
    (hii : ii < 4) (hjj : jj < 4) :
    arr1entry ((FiniteElement.mk "EB_beam").get_Ke 0 0 le EIe) (ii * 4 + jj)
      = arr1entry ((FiniteElement.mk "EB_beam").get_Ke 0 0 le EIe) (jj * 4 + ii) := by
  interval_cases ii <;> interval_cases jj <;> rfl

/-- Witness for C10 at `EI = 1`, `l = 1`, `ii = 0`, `jj = 1`. -/
theorem C10_Ke_EB_symmetric_witness :
    (0 : ℕ) < 4 ∧ (1 : ℕ) < 4 ∧
    arr1entry ((FiniteElement.mk "EB_beam").get_Ke 0 0 1 1) (0 * 4 + 1)
      = arr1entry ((FiniteElement.mk "EB_beam").get_Ke 0 0 1 1) (1 * 4 + 0) :=
  ⟨by decide, by decide, C10_Ke_EB_symmetric 1 1 0 1 (by decide) (by decide)⟩
